import Mathlib

/-!
Verification development for the elder-protection alert backend
(`backend/app.py`): phone normalization, rule-based scam classification,
alert/delivery ledgers and SMS dispatch.

Modelling conventions for the shallow embedding:
* Python strings are Lean `String`; character-level operations work on
  `List Char` (`String.mk` / `String.toList` convert).
* Python `str.lower` is modelled as mapping `Char.toLower` over the
  characters; `str.isdigit` as "non-empty and all characters are digits".
* The mutable module-level dictionaries (`USERS_DB`, `ALERTS_DB`,
  `FAMILY_LOG_DB`) become an explicit `State` record threaded through the
  operations; `USERS_DB` is an association list keyed by email.
* `uuid`/`datetime` (effectful, value-irrelevant to the properties here)
  are modelled by a fresh counter stored in `State`.
* The Twilio client is an oracle `Gw : String → String → GwOutcome`
  describing what the external gateway would answer; `twilio_client` is
  `Option Gw` exactly as the source holds `Client(...)` or `None`.  A
  ghost field `gw_calls` records every network call made, so that
  "no network contact" is statable.
* Python `set()` of recipient phones is modelled as an insertion-ordered
  duplicate-free list (`setAdd`): a deterministic refinement of the
  unordered Python set; all counting properties below are order-independent.
-/

/-- Python `str.strip`: drop leading and trailing whitespace. -/
def pyStrip (l : List Char) : List Char :=
  ((l.dropWhile Char.isWhitespace).reverse.dropWhile Char.isWhitespace).reverse

/-- The sequence of `s.replace(ch, "")` for `ch` in `[" ", "-", "(", ")", "."]`
in `clean_and_e164`: removing each of those characters. -/
def removePunct (l : List Char) : List Char :=
  l.filter (fun c => !(c == ' ' || c == '-' || c == '(' || c == ')' || c == '.'))

/-- Python `str.isdigit`: non-empty and every character a digit. -/
def isDigitL (l : List Char) : Bool :=
  !l.isEmpty && l.all Char.isDigit

/-- `clean_and_e164(phone_raw, default_country="91")` from `backend/app.py`. -/
def clean_and_e164 (phone_raw : String) (default_country : String := "91") :
    Option String :=
  if phone_raw = "" then none
  else
    let s := removePunct (pyStrip phone_raw.toList)
    let s_noplus := if s.head? == some '+' then s.drop 1 else s
    if isDigitL s_noplus && s_noplus.length == 10 then
      some (String.mk ('+' :: default_country.toList ++ s_noplus))
    else if isDigitL s_noplus && s_noplus.length == 12 &&
        default_country.toList.isPrefixOf s_noplus then
      some (String.mk ('+' :: s_noplus))
    else if isDigitL s_noplus && s_noplus.length == 11 &&
        s_noplus.head? == some '0' && isDigitL (s_noplus.drop 1) &&
        (s_noplus.drop 1).length == 10 then
      some (String.mk ('+' :: default_country.toList ++ s_noplus.drop 1))
    else if s.head? == some '+' && isDigitL (s.drop 1) then
      some (String.mk s)
    else none

/-- The normalization algorithm in the words of claim C2 / spec §4.1, with
the default country code `"91"`: strip the punctuation set, strip a leading
plus for digit counting, then apply the 10/12/11-digit rules, else accept a
plus-then-digits string as-is, else Invalid (`none`). -/
def normalize_spec (raw : String) : Option String :=
  if raw = "" then none
  else
    let cleaned := removePunct (pyStrip raw.toList)
    let digits := if cleaned.head? == some '+' then cleaned.drop 1 else cleaned
    if isDigitL digits && digits.length == 10 then
      some (String.mk ('+' :: '9' :: '1' :: digits))
    else if isDigitL digits && digits.length == 12 &&
        ['9', '1'].isPrefixOf digits then
      some (String.mk ('+' :: digits))
    else if isDigitL digits && digits.length == 11 && digits.head? == some '0' then
      some (String.mk ('+' :: '9' :: '1' :: digits.drop 1))
    else if cleaned.head? == some '+' && isDigitL (cleaned.drop 1) then
      some (String.mk cleaned)
    else none

/-- Python `str.lower`, character-wise. -/
def pyLower (l : List Char) : List Char := l.map Char.toLower

/-- `str.lower` on a whole string. -/
def pyLowerStr (s : String) : String := String.mk (pyLower s.toList)

/-- The fixed keyword list of `analyze_message`. -/
def scamKeywords : List String :=
  ["otp", "urgent", "bank", "blocked", "verify", "password", "transfer",
   "account", "click", "wire"]

/-- Python substring test `needle in hay`. -/
def pyContains (hay needle : List Char) : Bool := decide (needle <:+: hay)

/-- Result record of `analyze_message`.  `is_scam` is `Option Bool` because
the `except` branch of the source returns `None`; the rule-based branch
always returns a boolean. -/
structure Analysis where
  is_scam : Option Bool
  elder_warning : String
  explanation : String
deriving Repr, DecidableEq

/-- `analyze_message(message_text)` from `backend/app.py`.  The `try` body is
total in this embedding, so the `except` fallback (`is_scam = None`) is not
reachable from here; downstream code is still stated over arbitrary
`Analysis` values to cover it. -/
def analyze_message (message_text : String) : Analysis :=
  let lower := pyLower message_text.toList
  let is_scam := scamKeywords.any (fun k => pyContains lower k.toList)
  { is_scam := some is_scam
    elder_warning :=
      if is_scam then "⚠ This message looks suspicious. Do NOT share OTP/passwords."
      else "✔ This message appears safe."
    explanation := "Detected using keyword rules (demo)." }

/-- Outcome of the external Twilio gateway for one `messages.create` call:
either a message sid, or a raised exception (its string form). -/
inductive GwOutcome where
  | ok (sid : String)
  | err (msg : String)
deriving Repr, DecidableEq

/-- Oracle for the external gateway: what the network would answer for a
given `(to, body)` pair. -/
def Gw : Type := String → String → GwOutcome

/-- The dictionaries returned by `send_sms_twilio_single`:
`{"ok": ..., "sid": ...}` or `{"ok": ..., "error": ...}`. -/
structure SmsResult where
  ok : Bool
  sid : Option String
  error : Option String
deriving Repr, DecidableEq

/-- `USERS_DB[email]["profile"]`. -/
structure Profile where
  email : String
  name : String
  phone : String
deriving Repr, DecidableEq

/-- One member of `USERS_DB[email]["family"]`. -/
structure FamilyContact where
  name : String
  phone : String
  relation : String
deriving Repr, DecidableEq

/-- An alert dictionary as built by `save_alert`. -/
structure Alert where
  id : String
  sender : String
  message : String
  is_scam : Option Bool
  elder_warning : String
  explanation : String
  created_at : String
  user_email : Option String
deriving Repr, DecidableEq

/-- `USERS_DB[email]`. -/
structure UserRecord where
  profile : Profile
  family : List FamilyContact
  history : List Alert
deriving Repr, DecidableEq

/-- An entry of `FAMILY_LOG_DB`.  The two call sites build different
dictionaries: the scam dispatch in `test_message` fills `body`, the ad-hoc
dispatch in `send_family_alert` fills `message_sent` and `details`; a field
that the call site does not put in the dictionary is `none` here.  The
`details` payload is kept opaque as its string rendering. -/
structure LogEntry where
  id : String
  «to» : String
  body : Option String
  message_sent : Option String
  details : Option String
  result : SmsResult
  created_at : String
deriving Repr, DecidableEq

/-- The module-level mutable state of `backend/app.py` plus the ghost
network trace and the freshness counter for ids/timestamps. -/
structure State where
  users_db : List (String × UserRecord)
  alerts_db : List Alert
  family_log_db : List LogEntry
  gw_calls : List (String × String)
  counter : Nat
deriving Repr, DecidableEq

/-- The empty initial state. -/
def State.init : State :=
  { users_db := [], alerts_db := [], family_log_db := [], gw_calls := [], counter := 0 }

/-- `gen_id()`, modelled by the freshness counter. -/
def gen_id (n : Nat) : String := "id_" ++ toString n

/-- `now_iso()`, modelled by the freshness counter as an abstract timestamp. -/
def now_iso (n : Nat) : String := "t" ++ toString n

/-- `USERS_DB.get(email)`. -/
def usersGet (db : List (String × UserRecord)) (email : String) :
    Option UserRecord :=
  (db.find? (fun p => p.1 == email)).map Prod.snd

/-- The default record `{"profile": {"email": email, "name": "", "phone": ""},
"family": [], "history": []}` used by every `setdefault` call. -/
def defaultRecord (email : String) : UserRecord :=
  { profile := { email := email, name := "", phone := "" }, family := [], history := [] }

/-- Replace the value stored under a present key. -/
def usersReplace (db : List (String × UserRecord)) (email : String)
    (u : UserRecord) : List (String × UserRecord) :=
  db.map (fun p => if p.1 == email then (p.1, u) else p)

/-- `USERS_DB.setdefault(email, default)`: insert the default record when the
key is absent. -/
def usersSetdefault (db : List (String × UserRecord)) (email : String) :
    List (String × UserRecord) :=
  if (usersGet db email).isSome then db else db ++ [(email, defaultRecord email)]

/-- `USERS_DB.setdefault(email, default)` followed by a mutation of the
retrieved record, the pattern of `save_alert`, `save_profile`, `save_family`. -/
def usersUpsert (db : List (String × UserRecord)) (email : String)
    (f : UserRecord → UserRecord) : List (String × UserRecord) :=
  match usersGet db email with
  | some u => usersReplace db email (f u)
  | none => db ++ [(email, f (defaultRecord email))]

/-- `send_sms_twilio_single(to_e164, body_text)`.  `client` is `twilio_client`;
when it is `None` the simulated result is returned with no network call,
otherwise the call is recorded in the ghost trace and the oracle answers. -/
def send_sms_twilio_single (client : Option Gw) (s : State)
    (to_e164 body_text : String) : State × SmsResult :=
  match client with
  | none =>
      (s, { ok := false, sid := none,
            error := some "Twilio not configured (env missing)." })
  | some gw =>
      let s1 : State := { s with gw_calls := s.gw_calls ++ [(to_e164, body_text)] }
      match gw to_e164 body_text with
      | .ok sid => (s1, { ok := true, sid := some sid, error := none })
      | .err e => (s1, { ok := false, sid := none, error := some e })

/-- The pure result of one send attempt (the oracle is a pure function, so
the `SmsResult` depends only on the client, the target and the body). -/
def smsOutcome (client : Option Gw) (to_e164 body_text : String) : SmsResult :=
  match client with
  | none =>
      { ok := false, sid := none,
        error := some "Twilio not configured (env missing)." }
  | some gw =>
      match gw to_e164 body_text with
      | .ok sid => { ok := true, sid := some sid, error := none }
      | .err e => { ok := false, sid := none, error := some e }

/-- The simulated result returned when `twilio_client` is `None`. -/
def twilioNotConfigured : SmsResult :=
  { ok := false, sid := none, error := some "Twilio not configured (env missing)." }

/-- `save_alert(sender, message, analysis, user_email)`. -/
def save_alert (s : State) (sender message : String) (analysis : Analysis)
    (user_email : Option String) : State × Alert :=
  let alert : Alert :=
    { id := gen_id s.counter, sender := sender, message := message
      is_scam := analysis.is_scam, elder_warning := analysis.elder_warning
      explanation := analysis.explanation, created_at := now_iso s.counter
      user_email := user_email }
  let s1 : State := { s with alerts_db := alert :: s.alerts_db, counter := s.counter + 1 }
  match user_email with
  | some em =>
      if em = "" then (s1, alert)
      else
        let db2 :=
          usersUpsert s1.users_db em (fun u => { u with history := alert :: u.history })
        ({ s1 with users_db := db2 }, alert)
  | none => (s1, alert)


/-- `login` route. -/
def login (s : State) (email_raw : String) :
    State × Except (Nat × String) UserRecord :=
  let email := pyLowerStr email_raw
  if email = "" then (s, .error (400, "email required"))
  else
    let db := usersSetdefault s.users_db email
    ({ s with users_db := db }, .ok ((usersGet db email).getD (defaultRecord email)))

/-- `save_profile` route. -/
def save_profile (s : State) (email_raw : String) (profile : Profile) :
    State × Except (Nat × String) Unit :=
  let email := pyLowerStr email_raw
  if email = "" then (s, .error (400, "email required"))
  else
    let db := usersUpsert s.users_db email (fun u => { u with profile := profile })
    ({ s with users_db := db }, .ok ())

/-- `save_family` route. -/
def save_family (s : State) (email_raw : String) (family : List FamilyContact) :
    State × Except (Nat × String) Unit :=
  let email := pyLowerStr email_raw
  if email = "" then (s, .error (400, "email required"))
  else
    let db := usersUpsert s.users_db email (fun u => { u with family := family })
    ({ s with users_db := db }, .ok ())

/-- `get_alerts` route (`GET /alerts`); `none` models an absent query
parameter, and an empty string is falsy in the source. -/
def get_alerts (s : State) (email : Option String) : State × List Alert :=
  match email with
  | some em =>
      if em = "" then (s, s.alerts_db)
      else
        match usersGet s.users_db (pyLowerStr em) with
        | some u => (s, u.history)
        | none => (s, [])
  | none => (s, s.alerts_db)

/-- `recipients.add(...)` on the Python `set`, modelled as an
insertion-ordered duplicate-free list. -/
def setAdd (l : List String) (x : String) : List String :=
  if l.contains x then l else l ++ [x]

/-- The recipient-resolution block of `test_message`: the user profile phone
(when the email names a user with a non-empty phone) and every family
contact phone, collected into the raw-string `set`. -/
def resolveRecipients (s : State) (email : String) : List String :=
  let r : List String := []
  let r :=
    match usersGet s.users_db email with
    | some u =>
        if email ≠ "" ∧ u.profile.phone ≠ "" then setAdd r u.profile.phone else r
    | none => r
  match usersGet s.users_db email with
  | some u =>
      if email ≠ "" then
        u.family.foldl (fun acc m => if m.phone ≠ "" then setAdd acc m.phone else acc) r
      else r
  | none => r

/-- The per-recipient send loop of `test_message`: one gateway attempt and
one head-inserted `FAMILY_LOG_DB` entry per cleaned number, results
collected in order. -/
def scam_send_loop (client : Option Gw) (sms_body : String) :
    State → List String → State × List LogEntry
  | s, [] => (s, [])
  | s, e164 :: rest =>
      let p := send_sms_twilio_single client s e164 sms_body
      let entry : LogEntry :=
        { id := gen_id p.1.counter, «to» := e164, body := some sms_body
          message_sent := none, details := none, result := p.2
          created_at := now_iso p.1.counter }
      let s2 : State :=
        { p.1 with family_log_db := entry :: p.1.family_log_db, counter := p.1.counter + 1 }
      let q := scam_send_loop client sms_body s2 rest
      (q.1, entry :: q.2)

/-- Response of `test_message`: the saved alert and, only on the scam
branch, the `sms_sent` report. -/
structure TestMessageResp where
  alert : Alert
  sms_sent : Option (List LogEntry)
deriving Repr, DecidableEq

/-- `test_message` after the `analyze_message` call, parameterized over the
analysis result (the source checks `analysis.get("is_scam") is True`). -/
def test_message_with (client : Option Gw) (s : State)
    (email sender message : String) (analysis : Analysis) :
    State × TestMessageResp :=
  let p := save_alert s sender message analysis (if email = "" then none else some email)
  if analysis.is_scam == some true then
    let recipients := resolveRecipients p.1 email
    let cleaned := recipients.filterMap (fun ph => clean_and_e164 ph)
    let sms_body := "⚠ Scam alert for " ++ sender ++ ": " ++ analysis.elder_warning
    let q := scam_send_loop client sms_body p.1 cleaned
    (q.1, { alert := p.2, sms_sent := some q.2 })
  else (p.1, { alert := p.2, sms_sent := none })

/-- `test_message` route (`POST /test-message`). -/
def test_message (client : Option Gw) (s : State)
    (email_raw sender_raw message_raw : String) : State × TestMessageResp :=
  let email := pyLowerStr email_raw
  let sender := if sender_raw = "" then "User" else sender_raw
  test_message_with client s email sender message_raw (analyze_message message_raw)

/-- The `phones` field of the `send_family_alert` request body: either not a
JSON list at all, or a list of raw phone strings. -/
inductive PhonesArg where
  | notList
  | list (phones : List String)
deriving Repr, DecidableEq

/-- The per-recipient send loop of `send_family_alert`: note the entry shape
(`message_sent` and `details`, no `body`). -/
def adhoc_send_loop (client : Option Gw) (message_text details : String) :
    State → List String → State × List LogEntry
  | s, [] => (s, [])
  | s, e164 :: rest =>
      let p := send_sms_twilio_single client s e164 message_text
      let entry : LogEntry :=
        { id := gen_id p.1.counter, «to» := e164, body := none
          message_sent := some message_text, details := some details, result := p.2
          created_at := now_iso p.1.counter }
      let s2 : State :=
        { p.1 with family_log_db := entry :: p.1.family_log_db, counter := p.1.counter + 1 }
      let q := adhoc_send_loop client message_text details s2 rest
      (q.1, entry :: q.2)

/-- `send_family_alert` route (`POST /send-family-alert`). -/
def send_family_alert (client : Option Gw) (s : State) (phones : PhonesArg)
    (message_text details : String) :
    State × Except (Nat × String) (List String × List LogEntry) :=
  match phones with
  | .notList => (s, .error (400, "phones must be a non-empty list"))
  | .list ps =>
      if ps = [] then (s, .error (400, "phones must be a non-empty list"))
      else
        let cleaned := ps.filterMap (fun p => clean_and_e164 p)
        if cleaned = [] then (s, .error (400, "no valid phone numbers after cleaning"))
        else
          let q := adhoc_send_loop client message_text details s cleaned
          (q.1, .ok (cleaned, q.2))

/-- `family_logs` route (`GET /family-logs`). -/
def family_logs (s : State) : State × List LogEntry :=
  (s, s.family_log_db)

/-- Module initialization of the Twilio client: a `Client` when both the sid
and the auth token are non-empty, `None` otherwise, never a failure. -/
def mkTwilioClient (sid auth : String) (gw : Gw) : Option Gw :=
  if sid ≠ "" ∧ auth ≠ "" then some gw else none


/-! ## Helper lemmas -/

/-- One gateway attempt: the state changes only by the ghost network trace
(and only when a client is configured), and the result is the pure
`smsOutcome`. -/
theorem send_sms_twilio_single_eq (client : Option Gw) (s : State)
    (to_e164 body_text : String) :
    send_sms_twilio_single client s to_e164 body_text =
      ({ s with gw_calls :=
          s.gw_calls ++ (if client.isSome then [(to_e164, body_text)] else []) },
        smsOutcome client to_e164 body_text) := by
  cases client with
  | none => simp [send_sms_twilio_single, smsOutcome]
  | some gw =>
      cases h : gw to_e164 body_text <;>
        simp [send_sms_twilio_single, smsOutcome, h]

/-- The scam-dispatch send loop produces one log entry per target, in order. -/
theorem scam_send_loop_to (client : Option Gw) (sms_body : String) :
    ∀ (targets : List String) (s : State),
      (scam_send_loop client sms_body s targets).2.map (fun e => e.«to») = targets := by
  intro targets
  induction targets with
  | nil => intro s; simp [scam_send_loop]
  | cons e164 rest ih =>
      intro s
      simp [scam_send_loop, send_sms_twilio_single_eq, ih]

/-- Each entry of the scam-dispatch loop records the pure gateway outcome for
its own target. -/
theorem scam_send_loop_result (client : Option Gw) (sms_body : String) :
    ∀ (targets : List String) (s : State),
      (scam_send_loop client sms_body s targets).2.map (fun e => e.result) =
        targets.map (fun t => smsOutcome client t sms_body) := by
  intro targets
  induction targets with
  | nil => intro s; simp [scam_send_loop]
  | cons e164 rest ih =>
      intro s
      simp [scam_send_loop, send_sms_twilio_single_eq, ih]

/-- The scam-dispatch loop head-inserts exactly its entries into the
delivery ledger. -/
theorem scam_send_loop_log (client : Option Gw) (sms_body : String) :
    ∀ (targets : List String) (s : State),
      (scam_send_loop client sms_body s targets).1.family_log_db =
        (scam_send_loop client sms_body s targets).2.reverse ++ s.family_log_db := by
  intro targets
  induction targets with
  | nil => intro s; simp [scam_send_loop]
  | cons e164 rest ih =>
      intro s
      simp [scam_send_loop, send_sms_twilio_single_eq, ih]

/-- The scam-dispatch loop does not touch `USERS_DB`. -/
theorem scam_send_loop_users (client : Option Gw) (sms_body : String) :
    ∀ (targets : List String) (s : State),
      (scam_send_loop client sms_body s targets).1.users_db = s.users_db := by
  intro targets
  induction targets with
  | nil => intro s; simp [scam_send_loop]
  | cons e164 rest ih =>
      intro s
      simp [scam_send_loop, send_sms_twilio_single_eq, ih]

/-- The scam-dispatch loop does not touch `ALERTS_DB`. -/
theorem scam_send_loop_alerts (client : Option Gw) (sms_body : String) :
    ∀ (targets : List String) (s : State),
      (scam_send_loop client sms_body s targets).1.alerts_db = s.alerts_db := by
  intro targets
  induction targets with
  | nil => intro s; simp [scam_send_loop]
  | cons e164 rest ih =>
      intro s
      simp [scam_send_loop, send_sms_twilio_single_eq, ih]

/-- The scam-dispatch loop contacts the network once per target when a
client is configured and never otherwise. -/
theorem scam_send_loop_gw (client : Option Gw) (sms_body : String) :
    ∀ (targets : List String) (s : State),
      (scam_send_loop client sms_body s targets).1.gw_calls =
        s.gw_calls ++
          (if client.isSome then targets.map (fun t => (t, sms_body)) else []) := by
  intro targets
  induction targets with
  | nil => intro s; cases client <;> simp [scam_send_loop]
  | cons e164 rest ih =>
      intro s
      cases client <;> simp [scam_send_loop, send_sms_twilio_single_eq, ih]

/-- Every entry built by the scam-dispatch loop has the scam shape: the SMS
body under `body`, no `message_sent`, no `details`. -/
theorem scam_send_loop_shape (client : Option Gw) (sms_body : String) :
    ∀ (targets : List String) (s : State),
      ∀ e ∈ (scam_send_loop client sms_body s targets).2,
        e.body = some sms_body ∧ e.message_sent = none ∧ e.details = none := by
  intro targets
  induction targets with
  | nil => intro s; simp [scam_send_loop]
  | cons e164 rest ih =>
      intro s e he
      simp only [scam_send_loop, send_sms_twilio_single_eq, List.mem_cons] at he
      rcases he with rfl | he
      · exact ⟨rfl, rfl, rfl⟩
      · exact ih _ e he

/-- The ad-hoc send loop produces one log entry per target, in order. -/
theorem adhoc_send_loop_to (client : Option Gw) (message_text details : String) :
    ∀ (targets : List String) (s : State),
      (adhoc_send_loop client message_text details s targets).2.map (fun e => e.«to») =
        targets := by
  intro targets
  induction targets with
  | nil => intro s; simp [adhoc_send_loop]
  | cons e164 rest ih =>
      intro s
      simp [adhoc_send_loop, send_sms_twilio_single_eq, ih]

/-- Each entry of the ad-hoc loop records the pure gateway outcome for its
own target. -/
theorem adhoc_send_loop_result (client : Option Gw) (message_text details : String) :
    ∀ (targets : List String) (s : State),
      (adhoc_send_loop client message_text details s targets).2.map (fun e => e.result) =
        targets.map (fun t => smsOutcome client t message_text) := by
  intro targets
  induction targets with
  | nil => intro s; simp [adhoc_send_loop]
  | cons e164 rest ih =>
      intro s
      simp [adhoc_send_loop, send_sms_twilio_single_eq, ih]

/-- The ad-hoc loop head-inserts exactly its entries into the delivery
ledger. -/
theorem adhoc_send_loop_log (client : Option Gw) (message_text details : String) :
    ∀ (targets : List String) (s : State),
      (adhoc_send_loop client message_text details s targets).1.family_log_db =
        (adhoc_send_loop client message_text details s targets).2.reverse ++
          s.family_log_db := by
  intro targets
  induction targets with
  | nil => intro s; simp [adhoc_send_loop]
  | cons e164 rest ih =>
      intro s
      simp [adhoc_send_loop, send_sms_twilio_single_eq, ih]

/-- The ad-hoc loop does not touch `USERS_DB` or `ALERTS_DB`. -/
theorem adhoc_send_loop_frame (client : Option Gw) (message_text details : String) :
    ∀ (targets : List String) (s : State),
      (adhoc_send_loop client message_text details s targets).1.users_db = s.users_db
      ∧ (adhoc_send_loop client message_text details s targets).1.alerts_db =
          s.alerts_db := by
  intro targets
  induction targets with
  | nil => intro s; simp [adhoc_send_loop]
  | cons e164 rest ih =>
      intro s
      constructor
      · simp only [adhoc_send_loop, send_sms_twilio_single_eq]
        exact (ih _).1
      · simp only [adhoc_send_loop, send_sms_twilio_single_eq]
        exact (ih _).2

/-- The ad-hoc loop contacts the network once per target when a client is
configured and never otherwise. -/
theorem adhoc_send_loop_gw (client : Option Gw) (message_text details : String) :
    ∀ (targets : List String) (s : State),
      (adhoc_send_loop client message_text details s targets).1.gw_calls =
        s.gw_calls ++
          (if client.isSome then targets.map (fun t => (t, message_text)) else []) := by
  intro targets
  induction targets with
  | nil => intro s; cases client <;> simp [adhoc_send_loop]
  | cons e164 rest ih =>
      intro s
      cases client <;> simp [adhoc_send_loop, send_sms_twilio_single_eq, ih]

/-- Every entry built by the ad-hoc loop has the ad-hoc shape: text under
`message_sent`, the details payload under `details`, and no `body`. -/
theorem adhoc_send_loop_shape (client : Option Gw) (message_text details : String) :
    ∀ (targets : List String) (s : State),
      ∀ e ∈ (adhoc_send_loop client message_text details s targets).2,
        e.body = none ∧ e.message_sent = some message_text ∧
          e.details = some details := by
  intro targets
  induction targets with
  | nil => intro s; simp [adhoc_send_loop]
  | cons e164 rest ih =>
      intro s e he
      simp only [adhoc_send_loop, send_sms_twilio_single_eq, List.mem_cons] at he
      rcases he with rfl | he
      · exact ⟨rfl, rfl, rfl⟩
      · exact ih _ e he

/-- Replacing under a key is observed by a lookup at that key exactly when
the key was present. -/
theorem usersGet_usersReplace_self (db : List (String × UserRecord))
    (em : String) (u : UserRecord) :
    usersGet (usersReplace db em u) em = (usersGet db em).map (fun _ => u) := by
  induction db with
  | nil => rfl
  | cons kv rest ih =>
      by_cases h : kv.1 = em
      · have hb : (kv.1 == em) = true := beq_iff_eq.mpr h
        simp only [usersGet, usersReplace, List.map_cons, List.find?, hb] at ih ⊢
        simp [hb]
      · have hb : (kv.1 == em) = false := beq_false_of_ne h
        simp only [usersGet, usersReplace, List.map_cons, List.find?, hb, if_false,
          Bool.false_eq_true] at ih ⊢
        exact ih

/-- Lookup distributes over association-list append. -/
theorem usersGet_append (db l2 : List (String × UserRecord)) (em : String) :
    usersGet (db ++ l2) em =
      match usersGet db em with
      | some u => some u
      | none => usersGet l2 em := by
  induction db with
  | nil => simp [usersGet]
  | cons kv rest ih =>
      by_cases h : kv.1 = em
      · have hb : (kv.1 == em) = true := beq_iff_eq.mpr h
        simp only [usersGet, List.cons_append, List.find?, hb]
        simp
      · have hb : (kv.1 == em) = false := beq_false_of_ne h
        simp only [usersGet, List.cons_append, List.find?, hb] at ih ⊢
        exact ih

/-- `setdefault` makes the key present, bound to the old value when there
was one and to the default record otherwise. -/
theorem usersGet_usersSetdefault_self (db : List (String × UserRecord))
    (em : String) :
    usersGet (usersSetdefault db em) em =
      some ((usersGet db em).getD (defaultRecord em)) := by
  cases h : usersGet db em with
  | some u => simp [usersSetdefault, h]
  | none =>
      simp only [usersSetdefault, h, Option.isSome_none, Bool.false_eq_true,
        if_false, Option.getD_none]
      rw [usersGet_append, h]
      simp [usersGet, List.find?]

/-- `setdefault` followed by a mutation is observed by a lookup at that key
as the mutation of the previous (or default) record. -/
theorem usersGet_usersUpsert_self (db : List (String × UserRecord))
    (em : String) (f : UserRecord → UserRecord) :
    usersGet (usersUpsert db em f) em =
      some (f ((usersGet db em).getD (defaultRecord em))) := by
  cases h : usersGet db em with
  | some u => simp [usersUpsert, h, usersGet_usersReplace_self]
  | none =>
      simp only [usersUpsert, h]
      rw [usersGet_append, h]
      simp [usersGet, List.find?]

/-- `save_alert` never touches the delivery ledger or the network. -/
theorem save_alert_frame (s : State) (sender message : String)
    (analysis : Analysis) (user_email : Option String) :
    (save_alert s sender message analysis user_email).1.family_log_db =
        s.family_log_db
    ∧ (save_alert s sender message analysis user_email).1.gw_calls = s.gw_calls := by
  cases user_email with
  | none => simp [save_alert]
  | some em =>
      by_cases h : em = "" <;> simp [save_alert, h]

/-- `save_alert` head-inserts the new alert into the global ledger. -/
theorem save_alert_alerts (s : State) (sender message : String)
    (analysis : Analysis) (user_email : Option String) :
    (save_alert s sender message analysis user_email).1.alerts_db =
      (save_alert s sender message analysis user_email).2 :: s.alerts_db := by
  cases user_email with
  | none => simp [save_alert]
  | some em =>
      by_cases h : em = "" <;> simp [save_alert, h]

/-- For a non-empty user email, `save_alert` head-inserts the new alert into
that user history (creating the record by `setdefault` when absent). -/
theorem save_alert_users (s : State) (sender message : String)
    (analysis : Analysis) (em : String) (h : em ≠ "") :
    (save_alert s sender message analysis (some em)).1.users_db =
      usersUpsert s.users_db em
        (fun u =>
          { u with history := (save_alert s sender message analysis (some em)).2 :: u.history }) := by
  simp [save_alert, h]

/-- Lower-casing preserves emptiness of a string. -/
theorem pyLowerStr_eq_empty (s : String) : pyLowerStr s = "" ↔ s = "" := by
  constructor
  · intro h
    have h1 : (pyLowerStr s).toList.length = ("" : String).toList.length := by rw [h]
    simp only [pyLowerStr, pyLower] at h1
    have h2 : s.toList.length = 0 := by simpa using h1
    have h3 : s.toList = [] := List.eq_nil_of_length_eq_zero h2
    cases s with
    | mk d =>
        simp only [String.toList] at h3
        rw [show ("" : String) = String.mk [] from rfl, h3]
  · intro h; subst h; rfl

/-! ## Claim theorems -/

/-- Claim C10: the read-only operations `get_alerts` (GET /alerts) and
`family_logs` (GET /family-logs) never mutate any store, and querying alerts
for an unknown email returns an empty list without creating a user record. -/
theorem get_alerts_family_logs_readonly :
    (∀ (s : State) (email : Option String), (get_alerts s email).1 = s)
    ∧ (∀ s : State, (family_logs s).1 = s)
    ∧ (∀ (s : State) (em : String), em ≠ "" →
        usersGet s.users_db (pyLowerStr em) = none →
        (get_alerts s (some em)).2 = []) := by
  refine ⟨?_, ?_, ?_⟩
  · intro s email
    cases email with
    | none => rfl
    | some em =>
        by_cases h : em = ""
        · simp [get_alerts, h]
        · simp only [get_alerts, h, if_false]
          cases usersGet s.users_db (pyLowerStr em) <;> rfl
  · intro s; rfl
  · intro s em h1 h2
    simp [get_alerts, h1, h2]

/-- Witness for C10 at a concrete unknown email on the empty state. -/
theorem get_alerts_family_logs_readonly_witness :
    (get_alerts State.init (some "ghost@example.com")).2 = [] :=
  get_alerts_family_logs_readonly.2.2 State.init "ghost@example.com"
    (by decide) (by decide)

/-- Claim C9 (counterexample): with no gateway configured, the recorded
error string is the literal Twilio message of the source, not the string
"gateway not configured" stated by the claim. -/
theorem twilio_not_configured_counterexample :
    (send_sms_twilio_single none State.init "+919876543210" "hello").2 =
      twilioNotConfigured
    ∧ twilioNotConfigured.error = some "Twilio not configured (env missing)."
    ∧ ("Twilio not configured (env missing)." : String) ≠ "gateway not configured" := by
  exact ⟨rfl, rfl, by decide⟩

/-- Claim C9 (amended): when the gateway account identifier or secret is
missing, module initialization yields no client rather than failing, every
send attempt resolves to the fixed not-configured error
`"Twilio not configured (env missing)."` without any network contact, and a
delivery log entry is still appended for each attempted recipient. -/
theorem twilio_not_configured_spec :
    (∀ (s : State) (to_e164 body : String),
      send_sms_twilio_single none s to_e164 body = (s, twilioNotConfigured))
    ∧ (∀ (auth : String) (gw : Gw), mkTwilioClient "" auth gw = none)
    ∧ (∀ (sid : String) (gw : Gw), mkTwilioClient sid "" gw = none)
    ∧ (∀ (s : State) (msg det : String) (ps : List String)
        (res : List String × List LogEntry),
        (send_family_alert none s (PhonesArg.list ps) msg det).2 = .ok res →
          res.2.length = res.1.length
          ∧ (send_family_alert none s (PhonesArg.list ps) msg det).1.gw_calls =
              s.gw_calls
          ∧ ∀ e ∈ res.2, e.result = twilioNotConfigured) := by
  refine ⟨fun s t b => rfl, ?_, ?_, ?_⟩
  · intro auth gw; simp [mkTwilioClient]
  · intro sid gw; simp [mkTwilioClient]
  · intro s msg det ps res hok
    by_cases hps : ps = []
    · simp [send_family_alert, hps] at hok
    · by_cases hcl : ps.filterMap (fun p => clean_and_e164 p) = []
      · simp [send_family_alert, hps, hcl] at hok
      · simp only [send_family_alert, hps, hcl, if_false, if_neg,
          Except.ok.injEq] at hok
        subst hok
        refine ⟨?_, ?_, ?_⟩
        · have h1 := adhoc_send_loop_to none msg det
            (ps.filterMap (fun p => clean_and_e164 p)) s
          have := congrArg List.length h1
          simpa using this
        · simp only [send_family_alert, hps, hcl, if_false, if_neg]
          simpa using adhoc_send_loop_gw none msg det
            (ps.filterMap (fun p => clean_and_e164 p)) s
        · intro e he
          have h2 := adhoc_send_loop_result none msg det
            (ps.filterMap (fun p => clean_and_e164 p)) s
          have hm : e.result ∈
              (adhoc_send_loop none msg det s
                (ps.filterMap (fun p => clean_and_e164 p))).2.map
                (fun e => e.result) :=
            List.mem_map_of_mem (fun e => e.result) he
          rw [h2] at hm
          obtain ⟨t, _, hres⟩ := List.mem_map.1 hm
          exact hres.symm.trans rfl ▸ hres.symm

/-- Witness for C9 at a concrete ad-hoc dispatch with one valid phone. -/
theorem twilio_not_configured_spec_witness :
    ((send_family_alert none State.init (PhonesArg.list ["9876543210"]) "m" "d").2 =
        Except.ok (["+919876543210"],
          (adhoc_send_loop none "m" "d" State.init ["+919876543210"]).2))
    ∧ ∀ e ∈ (adhoc_send_loop none "m" "d" State.init ["+919876543210"]).2,
        e.result = twilioNotConfigured := by
  refine ⟨rfl, ?_⟩
  exact (twilio_not_configured_spec.2.2.2 State.init "m" "d" ["9876543210"]
    (["+919876543210"], (adhoc_send_loop none "m" "d" State.init ["+919876543210"]).2)
    rfl).2.2

/-- Claim C8: `test_message` never writes a delivery log entry nor contacts
the gateway unless the analysis verdict is exactly `True`; for a safe
(`False`) or unknown (`None`) verdict the response carries no dispatch
report and the delivery ledger is unchanged.  Stated both for the
post-analysis core (over an arbitrary verdict, covering `None`) and for the
full route. -/
theorem test_message_no_dispatch_unless_scam :
    (∀ (client : Option Gw) (s : State) (email sender message : String)
      (analysis : Analysis), analysis.is_scam ≠ some true →
        (test_message_with client s email sender message analysis).1.family_log_db =
            s.family_log_db
        ∧ (test_message_with client s email sender message analysis).1.gw_calls =
            s.gw_calls
        ∧ (test_message_with client s email sender message analysis).2.sms_sent = none)
    ∧ (∀ (client : Option Gw) (s : State) (email_raw sender_raw message_raw : String),
        (analyze_message message_raw).is_scam ≠ some true →
          (test_message client s email_raw sender_raw message_raw).1.family_log_db =
              s.family_log_db
          ∧ (test_message client s email_raw sender_raw message_raw).1.gw_calls =
              s.gw_calls
          ∧ (test_message client s email_raw sender_raw message_raw).2.sms_sent =
              none) := by
  have core : ∀ (client : Option Gw) (s : State) (email sender message : String)
      (analysis : Analysis), analysis.is_scam ≠ some true →
        (test_message_with client s email sender message analysis).1.family_log_db =
            s.family_log_db
        ∧ (test_message_with client s email sender message analysis).1.gw_calls =
            s.gw_calls
        ∧ (test_message_with client s email sender message analysis).2.sms_sent =
            none := by
    intro client s email sender message analysis h
    have hb : (analysis.is_scam == some true) = false := by
      simp only [beq_eq_false_iff_ne, ne_eq]
      exact h
    simp only [test_message_with, hb, Bool.false_eq_true, if_false]
    exact ⟨(save_alert_frame _ _ _ _ _).1, (save_alert_frame _ _ _ _ _).2, trivial⟩
  exact ⟨core, fun client s e sr m h => core client s (pyLowerStr e)
    (if sr = "" then "User" else sr) m (analyze_message m) h⟩

/-- Witness for C8: a safe message and an unknown (`None`) verdict. -/
theorem test_message_no_dispatch_unless_scam_witness :
    ((test_message none State.init "a@b.c" "Mom" "have a nice day").1.family_log_db = []
      ∧ (test_message none State.init "a@b.c" "Mom" "have a nice day").2.sms_sent = none)
    ∧ (test_message_with none State.init "a@b.c" "Mom" "hello"
        { is_scam := none, elder_warning := "AI could not analyze this message."
          explanation := "err" }).2.sms_sent = none := by
  constructor
  · constructor
    · exact (test_message_no_dispatch_unless_scam.2 none State.init "a@b.c" "Mom"
        "have a nice day" (by decide)).1
    · exact (test_message_no_dispatch_unless_scam.2 none State.init "a@b.c" "Mom"
        "have a nice day" (by decide)).2.2
  · exact (test_message_no_dispatch_unless_scam.1 none State.init "a@b.c" "Mom"
      "hello" _ (by decide)).2.2

/-- Claim C3: the classifier flags a text if and only if its lower-cased
form contains one of the ten fixed keywords as a substring (no word
boundaries); in particular a text containing "otp" in any letter case is
flagged, and a text containing no keyword is not. -/
theorem analyze_message_keyword_iff :
    (∀ text : String,
      ((analyze_message text).is_scam = some true ↔
        ∃ k ∈ scamKeywords, k.toList <:+: pyLower text.toList))
    ∧ (∀ text : String,
      ((analyze_message text).is_scam = some false ↔
        ∀ k ∈ scamKeywords, ¬ (k.toList <:+: pyLower text.toList)))
    ∧ (∀ (text : String) (pre post : List Char) (c1 c2 c3 : Char),
        text.toList = pre ++ c1 :: c2 :: c3 :: post →
        c1.toLower = 'o' → c2.toLower = 't' → c3.toLower = 'p' →
        (analyze_message text).is_scam = some true) := by
  have htrue : ∀ text : String,
      ((analyze_message text).is_scam = some true ↔
        ∃ k ∈ scamKeywords, k.toList <:+: pyLower text.toList) := by
    intro text
    simp [analyze_message, pyContains, List.any_eq_true]
  refine ⟨htrue, ?_, ?_⟩
  · intro text
    simp [analyze_message, pyContains, List.any_eq_true]
  · intro text pre post c1 c2 c3 ht h1 h2 h3
    refine (htrue text).2 ⟨"otp", by decide, ?_⟩
    rw [show ("otp" : String).toList = ['o', 't', 'p'] from rfl, ht]
    simp only [pyLower, List.map_append, List.map_cons, h1, h2, h3]
    exact ⟨List.map Char.toLower pre, List.map Char.toLower post, by simp⟩

/-- Witness for C3: a mixed-case "OTP" text is flagged and a harmless text
is not. -/
theorem analyze_message_keyword_iff_witness :
    (analyze_message "Share your OtP now").is_scam = some true
    ∧ (analyze_message "see you at lunch").is_scam = some false := by
  constructor
  · exact analyze_message_keyword_iff.2.2 "Share your OtP now"
      ['S', 'h', 'a', 'r', 'e', ' ', 'y', 'o', 'u', 'r', ' '] [' ', 'n', 'o', 'w']
      'O' 't' 'P' (by decide) (by decide) (by decide) (by decide)
  · exact (analyze_message_keyword_iff.2.1 "see you at lunch").2 (by decide)

/-- Claim C6: `save_alert` inserts every alert at the head of the global
ledger and of the user history, so after saving alerts A1 then A2 for the
same (already lower-cased) user email, both the global listing and the user
listing of `get_alerts` start with A2 then A1. -/
theorem save_alert_most_recent_first (s : State)
    (sender1 msg1 sender2 msg2 : String) (an1 an2 : Analysis) (em : String)
    (hem : em ≠ "") (hlow : pyLowerStr em = em) :
    (save_alert (save_alert s sender1 msg1 an1 (some em)).1 sender2 msg2 an2
        (some em)).1.alerts_db =
      (save_alert (save_alert s sender1 msg1 an1 (some em)).1 sender2 msg2 an2
          (some em)).2 ::
        (save_alert s sender1 msg1 an1 (some em)).2 :: s.alerts_db
    ∧ (get_alerts (save_alert (save_alert s sender1 msg1 an1 (some em)).1 sender2
          msg2 an2 (some em)).1 none).2 =
      (save_alert (save_alert s sender1 msg1 an1 (some em)).1 sender2 msg2 an2
          (some em)).2 ::
        (save_alert s sender1 msg1 an1 (some em)).2 :: s.alerts_db
    ∧ (get_alerts (save_alert (save_alert s sender1 msg1 an1 (some em)).1 sender2
          msg2 an2 (some em)).1 (some em)).2 =
      (save_alert (save_alert s sender1 msg1 an1 (some em)).1 sender2 msg2 an2
          (some em)).2 ::
        (save_alert s sender1 msg1 an1 (some em)).2 ::
          ((usersGet s.users_db em).getD (defaultRecord em)).history := by
  have halerts :
      (save_alert (save_alert s sender1 msg1 an1 (some em)).1 sender2 msg2 an2
          (some em)).1.alerts_db =
        (save_alert (save_alert s sender1 msg1 an1 (some em)).1 sender2 msg2 an2
            (some em)).2 ::
          (save_alert s sender1 msg1 an1 (some em)).2 :: s.alerts_db := by
    rw [save_alert_alerts, save_alert_alerts]
  refine ⟨halerts, halerts, ?_⟩
  simp only [get_alerts, hem, if_neg, hlow]
  rw [save_alert_users _ _ _ _ _ hem, usersGet_usersUpsert_self,
    save_alert_users _ _ _ _ _ hem, usersGet_usersUpsert_self]
  simp

/-- Witness for C6: two concrete alerts for a fresh user listed
most-recent-first. -/
theorem save_alert_most_recent_first_witness :
    (get_alerts (save_alert (save_alert State.init "S1" "m1"
        (analyze_message "hi") (some "a@b.c")).1 "S2" "m2"
        (analyze_message "otp") (some "a@b.c")).1 (some "a@b.c")).2 =
      [(save_alert (save_alert State.init "S1" "m1" (analyze_message "hi")
          (some "a@b.c")).1 "S2" "m2" (analyze_message "otp") (some "a@b.c")).2,
        (save_alert State.init "S1" "m1" (analyze_message "hi")
          (some "a@b.c")).2] := by
  have h := save_alert_most_recent_first State.init "S1" "m1" "S2" "m2"
    (analyze_message "hi") (analyze_message "otp") "a@b.c" (by decide) (by decide)
  simpa [State.init, usersGet, defaultRecord] using h.2.2

/-- Lookup in a singleton association list at its own key. -/
theorem usersGet_singleton_self (k : String) (v : UserRecord) :
    usersGet [(k, v)] k = some v := by
  simp [usersGet, List.find?]

/-- Claim C7: `login`, `save_profile` and `save_family` reject an empty or
missing email with a validation failure and write no state; with a
non-empty email they key the user by the lower-cased email, and the first
reference to an unknown email creates the default record (with the saved
profile or family applied by the respective operation). -/
theorem user_ops_validation_and_default :
    (∀ s : State, login s "" = (s, Except.error (400, "email required")))
    ∧ (∀ (s : State) (profile : Profile),
        save_profile s "" profile = (s, Except.error (400, "email required")))
    ∧ (∀ (s : State) (family : List FamilyContact),
        save_family s "" family = (s, Except.error (400, "email required")))
    ∧ (∀ (s : State) (raw : String), raw ≠ "" →
        ((usersGet s.users_db (pyLowerStr raw) = none →
          login s raw =
            ({ s with users_db := s.users_db ++
                [(pyLowerStr raw, defaultRecord (pyLowerStr raw))] },
              Except.ok (defaultRecord (pyLowerStr raw))))
        ∧ (∀ u, usersGet s.users_db (pyLowerStr raw) = some u →
            login s raw = (s, Except.ok u))))
    ∧ (∀ (s : State) (raw : String) (profile : Profile), raw ≠ "" →
        usersGet s.users_db (pyLowerStr raw) = none →
          save_profile s raw profile =
            ({ s with users_db := s.users_db ++
                [(pyLowerStr raw,
                  { defaultRecord (pyLowerStr raw) with profile := profile })] },
              Except.ok ()))
    ∧ (∀ (s : State) (raw : String) (family : List FamilyContact), raw ≠ "" →
        usersGet s.users_db (pyLowerStr raw) = none →
          save_family s raw family =
            ({ s with users_db := s.users_db ++
                [(pyLowerStr raw,
                  { defaultRecord (pyLowerStr raw) with family := family })] },
              Except.ok ())) := by
  refine ⟨fun s => rfl, fun s p => rfl, fun s f => rfl, ?_, ?_, ?_⟩
  · intro s raw hraw
    have hkey : pyLowerStr raw ≠ "" := fun hh => hraw ((pyLowerStr_eq_empty raw).1 hh)
    constructor
    · intro hnone
      simp only [login, hkey, if_neg, usersSetdefault, hnone, Option.isSome_none,
        Bool.false_eq_true, if_false]
      rw [usersGet_append, hnone]
      simp [usersGet_singleton_self]
    · intro u hsome
      simp only [login, hkey, if_neg, usersSetdefault, hsome, Option.isSome_some,
        if_true, hsome]
      simp
  · intro s raw profile hraw hnone
    have hkey : pyLowerStr raw ≠ "" := fun hh => hraw ((pyLowerStr_eq_empty raw).1 hh)
    simp only [save_profile, hkey, if_neg, usersUpsert, hnone]
    simp
  · intro s raw family hraw hnone
    have hkey : pyLowerStr raw ≠ "" := fun hh => hraw ((pyLowerStr_eq_empty raw).1 hh)
    simp only [save_family, hkey, if_neg, usersUpsert, hnone]
    simp

/-- Witness for C7: a mixed-case unknown email is keyed lower-cased and gets
the default record. -/
theorem user_ops_validation_and_default_witness :
    login State.init "Alice@Example.COM" =
      ({ State.init with users_db :=
          [("alice@example.com", defaultRecord "alice@example.com")] },
        Except.ok (defaultRecord "alice@example.com")) := by
  have h := (user_ops_validation_and_default.2.2.2.1 State.init "Alice@Example.COM"
    (by decide)).1 (by decide)
  have hp : pyLowerStr "Alice@Example.COM" = "alice@example.com" := by decide
  rw [hp] at h
  simpa [State.init] using h

/-- Claim C5: `send_family_alert` fails the whole call (writing nothing)
exactly when the phones field is not a list, is empty, or contains no
normalizable phone; otherwise it returns one log entry per normalized
target, each carrying that recipient's own gateway outcome, with no abort
on per-recipient gateway failures. -/
theorem send_family_alert_error_or_sends (client : Option Gw) (s : State)
    (arg : PhonesArg) (msg det : String) :
    ((∃ err, (send_family_alert client s arg msg det).2 = Except.error err) ↔
      (arg = PhonesArg.notList ∨
        ∃ ps, arg = PhonesArg.list ps ∧
          (ps = [] ∨ ∀ p ∈ ps, clean_and_e164 p = none)))
    ∧ (∀ err, (send_family_alert client s arg msg det).2 = Except.error err →
        (send_family_alert client s arg msg det).1 = s)
    ∧ (∀ ps res, arg = PhonesArg.list ps →
        (send_family_alert client s arg msg det).2 = Except.ok res →
          res.1 = ps.filterMap (fun p => clean_and_e164 p)
          ∧ res.2.map (fun e => e.«to») = res.1
          ∧ res.2.map (fun e => e.result) =
              res.1.map (fun t => smsOutcome client t msg)
          ∧ (send_family_alert client s arg msg det).1.family_log_db =
              res.2.reverse ++ s.family_log_db) := by
  cases arg with
  | notList =>
      refine ⟨?_, fun err h => rfl, ?_⟩
      · simp [send_family_alert]
      · intro ps res h1 h2
        exact absurd h1 (by simp)
  | list ps =>
      by_cases hps : ps = []
      · subst hps
        refine ⟨?_, fun err h => rfl, ?_⟩
        · constructor
          · intro _; exact Or.inr ⟨[], rfl, Or.inl rfl⟩
          · intro _; exact ⟨(400, "phones must be a non-empty list"), rfl⟩
        · intro ps' res h1 h2
          simp [send_family_alert] at h2
      · by_cases hcl : ps.filterMap (fun p => clean_and_e164 p) = []
        · refine ⟨?_, ?_, ?_⟩
          · constructor
            · intro _
              exact Or.inr ⟨ps, rfl, Or.inr (List.filterMap_eq_nil_iff.1 hcl)⟩
            · intro _
              exact ⟨(400, "no valid phone numbers after cleaning"),
                by simp [send_family_alert, hps, hcl]⟩
          · intro err h
            simp [send_family_alert, hps, hcl]
          · intro ps' res h1 h2
            injection h1 with h1e
            subst h1e
            simp [send_family_alert, hps, hcl] at h2
        · refine ⟨?_, ?_, ?_⟩
          · constructor
            · rintro ⟨err, herr⟩
              simp [send_family_alert, hps, hcl] at herr
            · intro hbad
              rcases hbad with h | ⟨ps', hps', hrest⟩
              · exact absurd h (by simp)
              · injection hps' with hpe
                subst hpe
                rcases hrest with h | h
                · exact absurd h hps
                · exact absurd (List.filterMap_eq_nil_iff.2 h) hcl
          · intro err h
            simp [send_family_alert, hps, hcl] at h
          · intro ps' res h1 h2
            injection h1 with h1e
            subst h1e
            have hred : send_family_alert client s (PhonesArg.list ps) msg det =
                ((adhoc_send_loop client msg det s
                    (ps.filterMap (fun p => clean_and_e164 p))).1,
                  Except.ok (ps.filterMap (fun p => clean_and_e164 p),
                    (adhoc_send_loop client msg det s
                      (ps.filterMap (fun p => clean_and_e164 p))).2)) := by
              simp [send_family_alert, hps, hcl]
            rw [hred] at h2
            rw [Except.ok.injEq] at h2
            subst h2
            refine ⟨rfl, ?_, ?_, ?_⟩
            · exact adhoc_send_loop_to client msg det _ s
            · exact adhoc_send_loop_result client msg det _ s
            · rw [hred]
              exact adhoc_send_loop_log client msg det _ s

/-- Witness for C5: the empty list writes nothing; a list with one valid
and one invalid phone sends exactly to the valid one. -/
theorem send_family_alert_error_or_sends_witness :
    (send_family_alert none State.init (PhonesArg.list []) "m" "d").1 = State.init
    ∧ ((adhoc_send_loop none "m" "d" State.init ["+919876543210"]).2.map
        (fun e => e.«to»)) = ["+919876543210"] := by
  constructor
  · exact (send_family_alert_error_or_sends none State.init
      (PhonesArg.list []) "m" "d").2.1 (400, "phones must be a non-empty list") rfl
  · have h := (send_family_alert_error_or_sends none State.init
      (PhonesArg.list ["9876543210", "12345"]) "m" "d").2.2
      ["9876543210", "12345"]
      (["+919876543210"],
        (adhoc_send_loop none "m" "d" State.init ["+919876543210"]).2)
      rfl rfl
    simpa using h.2.1

/-- Adding to the recipient set preserves freedom from duplicates. -/
theorem setAdd_nodup (l : List String) (x : String) (h : l.Nodup) :
    (setAdd l x).Nodup := by
  unfold setAdd
  split
  · exact h
  · rename_i hc
    have hx : x ∉ l := fun hmem => hc (List.elem_iff.mpr hmem)
    simp [List.nodup_append, hx, h]

/-- Folding family-contact phones into the recipient set preserves freedom
from duplicates. -/
theorem foldl_setAdd_nodup (fam : List FamilyContact) :
    ∀ acc : List String, acc.Nodup →
      (fam.foldl (fun acc m => if m.phone ≠ "" then setAdd acc m.phone else acc)
        acc).Nodup := by
  induction fam with
  | nil => intro acc h; simpa using h
  | cons m rest ih =>
      intro acc h
      simp only [List.foldl_cons]
      apply ih
      by_cases hp : m.phone = ""
      · simpa [hp] using h
      · simpa [hp] using setAdd_nodup acc m.phone h

/-- The resolved raw recipient set of `test_message` never contains the same
raw string twice. -/
theorem resolveRecipients_nodup (s : State) (email : String) :
    (resolveRecipients s email).Nodup := by
  unfold resolveRecipients
  cases h : usersGet s.users_db email with
  | none => simp
  | some u =>
      by_cases he : email = ""
      · simp [he]
      · simp only [he, ne_eq, not_false_iff, if_true]
        apply foldl_setAdd_nodup
        by_cases hp : u.profile.phone = ""
        · simp [hp, setAdd]
        · simp [hp, he, setAdd]

/-- Claim C1 (counterexample): the user profile phone `"9876543210"` and a
family phone `"+919876543210"` normalize to the same E.164 string, yet a
scam-triggered dispatch sends twice and writes two delivery log entries for
that number — the `set` deduplicates raw strings before normalization, not
normalized numbers. -/
theorem test_message_dedup_counterexample :
    clean_and_e164 "9876543210" = clean_and_e164 "+919876543210"
    ∧ ((test_message none
        { State.init with users_db :=
            [("e@x.com",
              { profile := { email := "e@x.com", name := "E", phone := "9876543210" }
                family := [{ name := "F", phone := "+919876543210", relation := "kin" }]
                history := [] })] }
        "e@x.com" "Bank" "Send your OTP now").1.family_log_db.filter
          (fun e => e.«to» == "+919876543210")).length = 2 := by
  constructor
  · rfl
  · decide

/-- Claim C1 (amended): the scam dispatch of `test_message` deduplicates the
raw phone strings (profile phone plus family phones): the raw recipient set
is duplicate-free and exactly one send attempt and one delivery log entry is
made per normalizable raw recipient — but two distinct raw strings that
normalize to the same E.164 number each get their own entry. -/
theorem test_message_dedup_raw (client : Option Gw) (s : State)
    (email sender message : String) (analysis : Analysis)
    (h : analysis.is_scam = some true) :
    (resolveRecipients (save_alert s sender message analysis
        (if email = "" then none else some email)).1 email).Nodup
    ∧ ∃ entries,
        (test_message_with client s email sender message analysis).2.sms_sent =
          some entries
        ∧ entries.map (fun e => e.«to») =
            (resolveRecipients (save_alert s sender message analysis
              (if email = "" then none else some email)).1 email).filterMap
              (fun ph => clean_and_e164 ph)
        ∧ (test_message_with client s email sender message
            analysis).1.family_log_db = entries.reverse ++ s.family_log_db := by
  have hb : (analysis.is_scam == some true) = true := by simp [h]
  refine ⟨resolveRecipients_nodup _ _, ?_⟩
  simp only [test_message_with, hb, if_true]
  refine ⟨_, rfl, ?_, ?_⟩
  · exact scam_send_loop_to client _ _ _
  · rw [scam_send_loop_log]
    rw [(save_alert_frame s sender message analysis _).1]

/-- Witness for the amended C1: the same raw string appearing as both the
profile phone and a family phone is sent exactly once. -/
theorem test_message_dedup_raw_witness :
    ∃ entries,
      (test_message_with none
        { State.init with users_db :=
            [("f@x.com",
              { profile := { email := "f@x.com", name := "E", phone := "9876543210" }
                family := [{ name := "F", phone := "9876543210", relation := "kin" }]
                history := [] })] }
        "f@x.com" "Bank" "otp" (analyze_message "otp")).2.sms_sent = some entries
      ∧ entries.map (fun e => e.«to») = ["+919876543210"] := by
  have h := test_message_dedup_raw none
    { State.init with users_db :=
        [("f@x.com",
          { profile := { email := "f@x.com", name := "E", phone := "9876543210" }
            family := [{ name := "F", phone := "9876543210", relation := "kin" }]
            history := [] })] }
    "f@x.com" "Bank" "otp" (analyze_message "otp") (by decide)
  obtain ⟨hnodup, entries, h1, h2, h3⟩ := h
  exact ⟨entries, h1, h2.trans (by decide)⟩

/-- Claim C4 (counterexample): an ad-hoc dispatch writes a log entry whose
message text sits under `message_sent` (with an extra `details` field) and
which has no `body` field at all, contradicting the claimed uniform
DeliveryLogEntry shape. -/
theorem adhoc_entry_shape_counterexample :
    ((send_family_alert none State.init (PhonesArg.list ["9876543210"]) "hello"
        "d").1.family_log_db.map (fun e => (e.body, e.message_sent, e.details))) =
      [(none, some "hello", some "d")] := by
  decide

/-- Claim C4 (amended): every entry the scam dispatch of `test_message`
adds to the delivery ledger has exactly the shape
`{id, to, body, result, created_at}` with the alert text under `body`,
while every entry the ad-hoc dispatch adds stores the text under
`message_sent` together with `details` and carries no `body`. -/
theorem log_entry_shapes :
    (∀ (client : Option Gw) (s : State) (email sender message : String)
      (analysis : Analysis),
      ∀ e ∈ (test_message_with client s email sender message
          analysis).1.family_log_db,
        e ∈ s.family_log_db ∨
          (e.body = some ("⚠ Scam alert for " ++ sender ++ ": " ++
              analysis.elder_warning)
            ∧ e.message_sent = none ∧ e.details = none))
    ∧ (∀ (client : Option Gw) (s : State) (email_raw sender_raw message_raw : String),
        ∀ e ∈ (test_message client s email_raw sender_raw
            message_raw).1.family_log_db,
          e ∈ s.family_log_db ∨
            (∃ b, e.body = some b ∧ e.message_sent = none ∧ e.details = none))
    ∧ (∀ (client : Option Gw) (s : State) (arg : PhonesArg) (msg det : String),
        ∀ e ∈ (send_family_alert client s arg msg det).1.family_log_db,
          e ∈ s.family_log_db ∨
            (e.body = none ∧ e.message_sent = some msg ∧ e.details = some det)) := by
  have part1 : ∀ (client : Option Gw) (s : State) (email sender message : String)
      (analysis : Analysis),
      ∀ e ∈ (test_message_with client s email sender message
          analysis).1.family_log_db,
        e ∈ s.family_log_db ∨
          (e.body = some ("⚠ Scam alert for " ++ sender ++ ": " ++
              analysis.elder_warning)
            ∧ e.message_sent = none ∧ e.details = none) := by
    intro client s email sender message analysis e he
    cases hscam : analysis.is_scam == some true with
    | false =>
        simp only [test_message_with, hscam, Bool.false_eq_true, if_false] at he
        rw [(save_alert_frame s sender message analysis _).1] at he
        exact Or.inl he
    | true =>
        simp only [test_message_with, hscam, if_true] at he
        rw [scam_send_loop_log,
          (save_alert_frame s sender message analysis _).1] at he
        rcases List.mem_append.1 he with hl | hr
        · exact Or.inr (scam_send_loop_shape _ _ _ _ e (List.mem_reverse.1 hl))
        · exact Or.inl hr
  refine ⟨part1, ?_, ?_⟩
  · intro client s email_raw sender_raw message_raw e he
    rcases part1 client s (pyLowerStr email_raw)
        (if sender_raw = "" then "User" else sender_raw) message_raw
        (analyze_message message_raw) e he with hl | hr
    · exact Or.inl hl
    · exact Or.inr ⟨_, hr⟩
  · intro client s arg msg det e he
    cases arg with
    | notList => exact Or.inl he
    | list ps =>
        by_cases hps : ps = []
        · subst hps; exact Or.inl he
        · by_cases hcl : ps.filterMap (fun p => clean_and_e164 p) = []
          · have hred : (send_family_alert client s (PhonesArg.list ps) msg det).1 =
                s := by simp [send_family_alert, hps, hcl]
            rw [hred] at he
            exact Or.inl he
          · have hred : (send_family_alert client s (PhonesArg.list ps) msg det).1 =
                (adhoc_send_loop client msg det s
                  (ps.filterMap (fun p => clean_and_e164 p))).1 := by
              simp [send_family_alert, hps, hcl]
            rw [hred, adhoc_send_loop_log] at he
            rcases List.mem_append.1 he with hl | hr
            · exact Or.inr (adhoc_send_loop_shape _ _ _ _ _ e (List.mem_reverse.1 hl))
            · exact Or.inl hr

/-- Witness for the amended C4: one scam entry with the text under `body`
and one ad-hoc entry with the text under `message_sent`. -/
theorem log_entry_shapes_witness :
    (∀ e ∈ (test_message_with none
        { State.init with users_db :=
            [("g@x.com",
              { profile := { email := "g@x.com", name := "G", phone := "9876543210" }
                family := [], history := [] })] }
        "g@x.com" "Bank" "otp" (analyze_message "otp")).1.family_log_db,
      e.body.isSome ∧ e.message_sent = none)
    ∧ ∀ e ∈ (send_family_alert none State.init (PhonesArg.list ["9876543210"])
        "hello" "d").1.family_log_db,
        e.body = none ∧ e.message_sent = some "hello" := by
  constructor
  · intro e he
    rcases log_entry_shapes.1 none
        { State.init with users_db :=
            [("g@x.com",
              { profile := { email := "g@x.com", name := "G", phone := "9876543210" }
                family := [], history := [] })] }
        "g@x.com" "Bank" "otp" (analyze_message "otp") e he with hl | hr
    · simp [State.init] at hl
    · exact ⟨by simp [hr.1], hr.2.1⟩
  · intro e he
    rcases log_entry_shapes.2.2 none State.init (PhonesArg.list ["9876543210"])
        "hello" "d" e he with hl | hr
    · simp [State.init] at hl
    · exact ⟨hr.1, hr.2.1⟩

/-- An all-digit string of length 11 stays all-digit and has length 10 after
dropping its first character (the redundant sub-conditions of the
trunk-prefix rule). -/
theorem isDigitL_eleven (d : List Char) (hd : isDigitL d = true)
    (hl : d.length = 11) :
    isDigitL (d.drop 1) = true ∧ (d.drop 1).length = 10 := by
  have hlen : (d.drop 1).length = 10 := by simp [List.length_drop, hl]
  refine ⟨?_, hlen⟩
  simp only [isDigitL, Bool.and_eq_true, List.all_eq_true] at hd ⊢
  obtain ⟨hne, hall⟩ := hd
  constructor
  · have hne2 : d.drop 1 ≠ [] := by
      intro hnil
      rw [hnil] at hlen
      simp at hlen
    have hne3 : d.tail ≠ [] := by
      rw [← List.drop_one]
      exact hne2
    simp [List.drop_one, hne3]
  · intro x hx
    exact hall x (List.drop_subset _ _ hx)

/-- Claim C2: `clean_and_e164` with the default country code "91" computes
exactly the §4.1 normalization algorithm as restated in the claim, and
satisfies all the spec example equalities. -/
theorem clean_and_e164_matches_spec :
    (∀ raw : String, clean_and_e164 raw = normalize_spec raw)
    ∧ clean_and_e164 "9876543210" = some "+919876543210"
    ∧ clean_and_e164 "919876543210" = some "+919876543210"
    ∧ clean_and_e164 "09876543210" = some "+919876543210"
    ∧ clean_and_e164 "+919876543210" = some "+919876543210"
    ∧ clean_and_e164 "12345" = none
    ∧ clean_and_e164 "" = none := by
  refine ⟨?_, by decide, by decide, by decide, by decide, by decide, by decide⟩
  intro raw
  by_cases h0 : raw = ""
  · simp [clean_and_e164, normalize_spec, h0]
  · simp only [clean_and_e164, normalize_spec, h0, if_false]
    generalize removePunct (pyStrip raw.toList) = l
    generalize (if l.head? == some '+' then l.drop 1 else l) = d
    have h91 : ("91" : String).toList = ['9', '1'] := rfl
    simp only [h91, List.cons_append, List.nil_append]
    have hcond :
        (isDigitL d && d.length == 11 && (d.head? == some '0') &&
          isDigitL (d.drop 1) && ((d.drop 1).length == 10)) =
        (isDigitL d && d.length == 11 && (d.head? == some '0')) := by
      by_cases hd : isDigitL d = true
      · by_cases hl : d.length = 11
        · obtain ⟨h1, h2⟩ := isDigitL_eleven d hd hl
          have hb : (d.length == 11) = true := beq_iff_eq.mpr hl
          have hb2 : ((d.drop 1).length == 10) = true := beq_iff_eq.mpr h2
          rw [hd, hb, h1, hb2]
          simp only [Bool.true_and, Bool.and_true]
        · have hb : (d.length == 11) = false := by simp [hl]
          rw [hb]
          simp only [Bool.and_false, Bool.false_and]
      · simp only [Bool.not_eq_true] at hd
        rw [hd]
        simp only [Bool.false_and]
    rw [hcond]
